import Mathlib

/-!
Verification of the epoch-state engine of the BigBangSImulation repository.

The namespace `AdvancedBigBangSim` embeds the pure state-derivation function
`calculate_state` of `AdvancedBigBangSim.py` over the real numbers: Python
floats become reals, `float` power becomes `Real.rpow`, `np.exp` becomes
`Real.exp`, `math.sqrt` becomes `Real.sqrt`, and the `float('inf')`
temperature sentinel becomes the `Temp.infinite` constructor.

The namespace `BigBangSimulator` embeds the `EPOCHS` table and the epoch
index stepping operations (`next_epoch` / `prev_epoch`) of
`BigBangSimulator.py`, with the index carried as an unbounded integer as in
Python.
-/

noncomputable section

namespace AdvancedBigBangSim

/-- Cosmological parameter `H0 = 70` (module level in AdvancedBigBangSim.py). -/
def H0 : ℝ := 70

/-- Cosmological parameter `Omega_M0 = 0.3`. -/
def Omega_M0 : ℝ := 0.3

/-- Cosmological parameter `Omega_R0 = 9e-5`. -/
def Omega_R0 : ℝ := 9e-5

/-- `Omega_L0 = 1.0 - Omega_M0 - Omega_R0`. -/
def Omega_L0 : ℝ := 1.0 - Omega_M0 - Omega_R0

/-- `H0_per_yr = H0 / (3.086e19 / 1000) * (3.154e7)`. -/
def H0_per_yr : ℝ := H0 / (3.086e19 / 1000) * 3.154e7

/-- `sec_in_year = 365.25 * 24 * 3600`. -/
def sec_in_year : ℝ := 365.25 * 24 * 3600

/-- Local constant of `calculate_state`: `t_present_yr = 13.8e9`. -/
def t_present_yr : ℝ := 13.8e9

/-- Local constant of `calculate_state`: `t_rad_mat_eq_yr = 50000`. -/
def t_rad_mat_eq_yr : ℝ := 50000

/-- Local constant of `calculate_state`: `t_mat_lambda_eq_yr = 9.8e9`. -/
def t_mat_lambda_eq_yr : ℝ := 9.8e9

/-- `a_ml = (Omega_M0/Omega_L0)**(1/3)`, the scale factor at matter-lambda
equality relative to today, as computed in each branch of `calculate_state`. -/
def a_ml : ℝ := (Omega_M0 / Omega_L0) ^ ((1 : ℝ) / 3)

/-- `a_at_rm_eq_approx = a_ml * (t_rad_mat_eq_yr / t_mat_lambda_eq_yr)**(2/3)`,
the scale factor at radiation-matter equality relative to today, as computed in
the radiation branch of `calculate_state`. -/
def a_at_rm_eq_approx : ℝ := a_ml * (t_rad_mat_eq_yr / t_mat_lambda_eq_yr) ^ ((2 : ℝ) / 3)

/-- The un-clamped `scale_factor_approx` local variable of `calculate_state`:
the piecewise radiation- / matter- / dark-energy-dominated closed forms, with
`1e-30` for non-positive time. -/
def scale_factor_approx (t_years : ℝ) : ℝ :=
  if t_years ≤ 0 then 1e-30
  else if t_years < t_rad_mat_eq_yr then
    a_at_rm_eq_approx * (t_years / t_rad_mat_eq_yr) ^ ((0.5 : ℝ))
  else if t_years < t_mat_lambda_eq_yr then
    a_ml * (t_years / t_mat_lambda_eq_yr) ^ ((2 : ℝ) / 3)
  else
    a_ml * Real.exp (H0_per_yr * Real.sqrt Omega_L0 * (t_years - t_mat_lambda_eq_yr)) /
      (a_ml * Real.exp (H0_per_yr * Real.sqrt Omega_L0 * (t_present_yr - t_mat_lambda_eq_yr)))

/-- The `temp_k` value stored in the state dict: Python `float('inf')` for
non-positive time, and in each positive-time branch `T_today / scale_factor_approx`
with `T_today = 2.725` (the same formula in all three branches). -/
inductive Temp where
  | infinite : Temp
  | finite : ℝ → Temp

/-- Python float comparison `temp_k > c` where `temp_k` may be `float('inf')`:
infinity exceeds every real bound. -/
def Temp.gtReal : Temp → ℝ → Prop
  | Temp.infinite, _ => True
  | Temp.finite x, c => c < x

/-- `state["temp_k"]` as a function of the time: `float('inf')` for `t ≤ 0`,
otherwise `2.725 / scale_factor_approx` (set identically in each branch of
`calculate_state`). -/
def temp_of (t_years : ℝ) : Temp :=
  if t_years ≤ 0 then Temp.infinite
  else Temp.finite (2.725 / scale_factor_approx t_years)

/-- Phase-label constant of `calculate_state`: `T_quark_hadron = 1e12`. -/
def T_quark_hadron : ℝ := 1e12

/-- `t_nucleosynthesis_start_yr = 10 / sec_in_year`. -/
def t_nucleosynthesis_start_yr : ℝ := 10 / sec_in_year

/-- `t_nucleosynthesis_end_yr = (20 * 60) / sec_in_year`. -/
def t_nucleosynthesis_end_yr : ℝ := 20 * 60 / sec_in_year

/-- `T_recombination = 3000`. -/
def T_recombination : ℝ := 3000

/-- `t_recombination_yr = 377000`. -/
def t_recombination_yr : ℝ := 377000

/-- `t_first_stars_yr = 200e6`. -/
def t_first_stars_yr : ℝ := 200e6

open Classical in
/-- The phase-label ladder of `calculate_state` (lines 235-243): the fixed
priority chain of `if`/`elif` tests on the time and the computed temperature,
first match wins. -/
def description_of (t_years : ℝ) (temp_k : Temp) : String :=
  if t_years * sec_in_year < 1e-12 then "Inflation / Planck Era (Conceptual)"
  else if temp_k.gtReal T_quark_hadron then "Quark-Gluon Plasma"
  else if t_years > t_nucleosynthesis_start_yr ∧ t_years < t_nucleosynthesis_end_yr then
    "Big Bang Nucleosynthesis"
  else if temp_k.gtReal T_recombination then "Opaque Plasma (Photon Baryon Fluid)"
  else if t_years < t_first_stars_yr then
    if t_years > t_recombination_yr then "Dark Ages (Neutral Atoms, CMB Released)"
    else "Recombination Ongoing"
  else if t_years < t_mat_lambda_eq_yr then "Structure Formation (Stars, Galaxies)"
  else "Dark Energy Dominated Expansion"

/-- The `visual_params` dict: `density = Omega_M0 / scale_factor**3` and
`color_temp = temp_k`. -/
structure VisualParams where
  density : ℝ
  color_temp : Temp

/-- The state dict returned by `calculate_state`. -/
structure SimState where
  time_years : ℝ
  temp_k : Temp
  scale_factor : ℝ
  description : String
  visual_params : VisualParams

/-- Shallow embedding of `InteractiveBigBangSim.calculate_state` (lines
189-246 of AdvancedBigBangSim.py): piecewise scale factor, temperature
`2.725 / scale_factor_approx` (infinite at `t ≤ 0`), the clamp
`max(1e-30, scale_factor_approx)`, the phase-label ladder, and the visual
parameters `density = Omega_M0 / scale_factor**3`, `color_temp = temp_k`. -/
def calculate_state (t_years : ℝ) : SimState :=
  { time_years := t_years
    temp_k := temp_of t_years
    scale_factor := max 1e-30 (scale_factor_approx t_years)
    description := description_of t_years (temp_of t_years)
    visual_params :=
      { density := Omega_M0 / max 1e-30 (scale_factor_approx t_years) ^ 3
        color_temp := temp_of t_years } }

end AdvancedBigBangSim

namespace BigBangSimulator

/-- The `size_factor` field of an epoch entry: a number for most entries, a
string for the final "Future - Heat Death?" entry. -/
inductive SizeFactor where
  | num : ℝ → SizeFactor
  | str : String → SizeFactor

/-- One entry of the `EPOCHS` table of BigBangSimulator.py. -/
structure Epoch where
  name : String
  time_years : ℝ
  temp_k : String
  size_factor : SizeFactor
  description : String
  visual : String

/-- The `EPOCHS` table (lines 7-80 of BigBangSimulator.py), in order. -/
def EPOCHS : List Epoch :=
  [ { name := "Big Bang Singularity", time_years := 0, temp_k := "Infinite",
      size_factor := SizeFactor.num 0,
      description := "The universe begins as an infinitely hot and dense point.",
      visual := "singularity" },
    { name := "Inflation", time_years := 1e-34 / (365 * 24 * 3600), temp_k := "~10^27 K",
      size_factor := SizeFactor.num 1e-26,
      description := "Rapid exponential expansion. Universe filled with quark-gluon plasma.",
      visual := "inflation" },
    { name := "Nucleosynthesis", time_years := 3 / (60 * 24 * 365), temp_k := "~10^9 K",
      size_factor := SizeFactor.num 1e-15,
      description := "Protons and neutrons fuse to form the first light nuclei (Hydrogen, Helium, Lithium). Universe is opaque plasma.",
      visual := "plasma_soup" },
    { name := "Recombination", time_years := 377000, temp_k := "~3000 K",
      size_factor := SizeFactor.num (1 / 1100),
      description := "Universe cools enough for electrons to combine with nuclei, forming neutral atoms. Light can travel freely (CMB is released). Universe becomes transparent.",
      visual := "transparent_atoms" },
    { name := "Dark Ages & First Stars", time_years := 400000000, temp_k := "~60 K",
      size_factor := SizeFactor.num (1 / 20),
      description := "Gravity slowly pulls matter together. The first stars and galaxies begin to form, reionizing the universe.",
      visual := "first_structures" },
    { name := "Galaxy Formation Peak", time_years := 3000000000, temp_k := "~10 K",
      size_factor := SizeFactor.num (1 / 3),
      description := "Peak era of star formation and galaxy assembly. Quasars are common.",
      visual := "forming_galaxies" },
    { name := "Present Day", time_years := 13800000000, temp_k := "2.7 K (CMB)",
      size_factor := SizeFactor.num 1,
      description := "Universe dominated by dark energy, leading to accelerated expansion. Complex structures (clusters, superclusters) exist.",
      visual := "modern_galaxies" },
    { name := "Future - Continued Expansion", time_years := 100000000000, temp_k := "< 1 K",
      size_factor := SizeFactor.num 10,
      description := "Accelerated expansion continues. Galaxies move further apart. Star formation declines.",
      visual := "distant_galaxies" },
    { name := "Future - Heat Death?", time_years := 1e14, temp_k := "-> 0 K",
      size_factor := SizeFactor.str ">> 10",
      description := "If expansion continues indefinitely: Star formation ceases, stars die, black holes evaporate (very long term). Universe approaches maximum entropy.",
      visual := "empty_cold" } ]

/-- `next_epoch` (lines 287-290): increment the index only while it is below
`len(EPOCHS) - 1`. -/
def next_epoch (i : ℤ) : ℤ :=
  if i < (EPOCHS.length : ℤ) - 1 then i + 1 else i

/-- `prev_epoch` (lines 292-295): decrement the index only while it is above 0. -/
def prev_epoch (i : ℤ) : ℤ :=
  if i > 0 then i - 1 else i

/-- A button press in the stepped viewer. -/
inductive EpochOp where
  | next : EpochOp
  | prev : EpochOp

/-- One button press acting on the current epoch index. -/
def epoch_step (i : ℤ) : EpochOp → ℤ
  | EpochOp.next => next_epoch i
  | EpochOp.prev => prev_epoch i

/-- The epoch index reached from the initial index 0 (`self.current_epoch_index = 0`)
after a sequence of button presses. -/
def run_epochs (ops : List EpochOp) : ℤ :=
  ops.foldl epoch_step 0

end BigBangSimulator

end

namespace AdvancedBigBangSim

lemma rpow_third_le {a b : ℝ} (ha : 0 ≤ a) (hb : 0 ≤ b) (h : a ≤ b ^ 3) :
    a ^ ((1 : ℝ) / 3) ≤ b := by
  calc a ^ ((1 : ℝ) / 3) ≤ (b ^ 3) ^ ((1 : ℝ) / 3) :=
        Real.rpow_le_rpow ha h (by norm_num)
    _ = b := by
        rw [← Real.rpow_natCast b 3, ← Real.rpow_mul hb,
          show ((3 : ℕ) : ℝ) * (1 / 3) = 1 by norm_num, Real.rpow_one]

lemma le_rpow_third {a b : ℝ} (hb : 0 ≤ b) (h : b ^ 3 ≤ a) :
    b ≤ a ^ ((1 : ℝ) / 3) := by
  calc b = (b ^ 3) ^ ((1 : ℝ) / 3) := by
        rw [← Real.rpow_natCast b 3, ← Real.rpow_mul hb,
          show ((3 : ℕ) : ℝ) * (1 / 3) = 1 by norm_num, Real.rpow_one]
    _ ≤ a ^ ((1 : ℝ) / 3) := Real.rpow_le_rpow (pow_nonneg hb 3) h (by norm_num)

lemma rpow_two_thirds_le {a b : ℝ} (ha : 0 ≤ a) (hb : 0 ≤ b) (h : a ^ 2 ≤ b ^ 3) :
    a ^ ((2 : ℝ) / 3) ≤ b := by
  have h1 : (a ^ 2) ^ ((1 : ℝ) / 3) = a ^ ((2 : ℝ) / 3) := by
    rw [← Real.rpow_natCast a 2, ← Real.rpow_mul ha]
    norm_num
  rw [← h1]
  exact rpow_third_le (pow_nonneg ha 2) hb h

lemma le_rpow_two_thirds {a b : ℝ} (ha : 0 ≤ a) (hb : 0 ≤ b) (h : b ^ 3 ≤ a ^ 2) :
    b ≤ a ^ ((2 : ℝ) / 3) := by
  have h1 : (a ^ 2) ^ ((1 : ℝ) / 3) = a ^ ((2 : ℝ) / 3) := by
    rw [← Real.rpow_natCast a 2, ← Real.rpow_mul ha]
    norm_num
  rw [← h1]
  exact le_rpow_third hb h

lemma rpow_half_le {a b : ℝ} (ha : 0 ≤ a) (hb : 0 ≤ b) (h : a ≤ b ^ 2) :
    a ^ ((0.5 : ℝ)) ≤ b := by
  calc a ^ ((0.5 : ℝ)) ≤ (b ^ 2) ^ ((0.5 : ℝ)) := Real.rpow_le_rpow ha h (by norm_num)
    _ = b := by
        rw [← Real.rpow_natCast b 2, ← Real.rpow_mul hb,
          show ((2 : ℕ) : ℝ) * (0.5 : ℝ) = 1 by norm_num, Real.rpow_one]

lemma le_rpow_half {a b : ℝ} (hb : 0 ≤ b) (h : b ^ 2 ≤ a) :
    b ≤ a ^ ((0.5 : ℝ)) := by
  calc b = (b ^ 2) ^ ((0.5 : ℝ)) := by
        rw [← Real.rpow_natCast b 2, ← Real.rpow_mul hb,
          show ((2 : ℕ) : ℝ) * (0.5 : ℝ) = 1 by norm_num, Real.rpow_one]
    _ ≤ a ^ ((0.5 : ℝ)) := Real.rpow_le_rpow (pow_nonneg hb 2) h (by norm_num)

lemma Omega_ratio_pos : 0 < Omega_M0 / Omega_L0 := by
  norm_num [Omega_M0, Omega_L0, Omega_R0]

lemma a_ml_pos : 0 < a_ml :=
  Real.rpow_pos_of_pos Omega_ratio_pos _

lemma a_ml_le_one : a_ml ≤ 1 :=
  Real.rpow_le_one Omega_ratio_pos.le (by norm_num [Omega_M0, Omega_L0, Omega_R0]) (by norm_num)

lemma a_ml_lb : 0.75 ≤ a_ml :=
  le_rpow_third (by norm_num) (by norm_num [Omega_M0, Omega_L0, Omega_R0])

lemma a_ml_ub : a_ml ≤ 0.7545 :=
  rpow_third_le Omega_ratio_pos.le (by norm_num) (by norm_num [Omega_M0, Omega_L0, Omega_R0])

lemma arm_pos : 0 < a_at_rm_eq_approx :=
  mul_pos a_ml_pos
    (Real.rpow_pos_of_pos (by norm_num [t_rad_mat_eq_yr, t_mat_lambda_eq_yr]) _)

lemma arm_lb : 2.2125e-4 ≤ a_at_rm_eq_approx := by
  have h1 : (0.000295 : ℝ) ≤ (t_rad_mat_eq_yr / t_mat_lambda_eq_yr) ^ ((2 : ℝ) / 3) :=
    le_rpow_two_thirds (by norm_num [t_rad_mat_eq_yr, t_mat_lambda_eq_yr]) (by norm_num)
      (by norm_num [t_rad_mat_eq_yr, t_mat_lambda_eq_yr])
  calc (2.2125e-4 : ℝ) = 0.75 * 0.000295 := by norm_num
    _ ≤ a_ml * (t_rad_mat_eq_yr / t_mat_lambda_eq_yr) ^ ((2 : ℝ) / 3) :=
        mul_le_mul a_ml_lb h1 (by norm_num) (le_trans (by norm_num) a_ml_lb)
    _ = a_at_rm_eq_approx := rfl

lemma arm_le_one : a_at_rm_eq_approx ≤ 1 := by
  have h1 : (t_rad_mat_eq_yr / t_mat_lambda_eq_yr) ^ ((2 : ℝ) / 3) ≤ 1 :=
    Real.rpow_le_one (by norm_num [t_rad_mat_eq_yr, t_mat_lambda_eq_yr])
      (by norm_num [t_rad_mat_eq_yr, t_mat_lambda_eq_yr]) (by norm_num)
  calc a_at_rm_eq_approx = a_ml * (t_rad_mat_eq_yr / t_mat_lambda_eq_yr) ^ ((2 : ℝ) / 3) := rfl
    _ ≤ 1 * 1 := mul_le_mul a_ml_le_one h1 (Real.rpow_nonneg
        (by norm_num [t_rad_mat_eq_yr, t_mat_lambda_eq_yr]) _) (by norm_num)
    _ = 1 := by norm_num

lemma scale_factor_approx_nonpos {t : ℝ} (h : t ≤ 0) : scale_factor_approx t = 1e-30 := by
  unfold scale_factor_approx
  rw [if_pos h]

lemma scale_factor_approx_rad {t : ℝ} (h0 : 0 < t) (h1 : t < t_rad_mat_eq_yr) :
    scale_factor_approx t = a_at_rm_eq_approx * (t / t_rad_mat_eq_yr) ^ ((0.5 : ℝ)) := by
  unfold scale_factor_approx
  rw [if_neg (not_le.mpr h0), if_pos h1]

lemma scale_factor_approx_mat {t : ℝ} (h1 : t_rad_mat_eq_yr ≤ t) (h2 : t < t_mat_lambda_eq_yr) :
    scale_factor_approx t = a_ml * (t / t_mat_lambda_eq_yr) ^ ((2 : ℝ) / 3) := by
  have h0 : ¬ t ≤ 0 := by
    have : (0 : ℝ) < t_rad_mat_eq_yr := by norm_num [t_rad_mat_eq_yr]
    push_neg
    linarith
  unfold scale_factor_approx
  rw [if_neg h0, if_neg (not_lt.mpr h1), if_pos h2]

lemma scale_factor_approx_de {t : ℝ} (h : t_mat_lambda_eq_yr ≤ t) :
    scale_factor_approx t =
      Real.exp (H0_per_yr * Real.sqrt Omega_L0 * (t - t_mat_lambda_eq_yr)) /
        Real.exp (H0_per_yr * Real.sqrt Omega_L0 * (t_present_yr - t_mat_lambda_eq_yr)) := by
  have html : (0 : ℝ) < t_mat_lambda_eq_yr := by norm_num [t_mat_lambda_eq_yr]
  have htrm : t_rad_mat_eq_yr < t_mat_lambda_eq_yr := by
    norm_num [t_rad_mat_eq_yr, t_mat_lambda_eq_yr]
  have h0 : ¬ t ≤ 0 := by push_neg; linarith
  have h1 : ¬ t < t_rad_mat_eq_yr := by push_neg; linarith
  unfold scale_factor_approx
  rw [if_neg h0, if_neg h1, if_neg (not_lt.mpr h),
    mul_div_mul_left _ _ (ne_of_gt a_ml_pos)]

lemma scale_factor_approx_pos (t : ℝ) : 0 < scale_factor_approx t := by
  rcases le_or_lt t 0 with h | h
  · rw [scale_factor_approx_nonpos h]
    norm_num
  · rcases lt_or_le t t_rad_mat_eq_yr with h1 | h1
    · rw [scale_factor_approx_rad h h1]
      exact mul_pos arm_pos (Real.rpow_pos_of_pos
        (div_pos h (by norm_num [t_rad_mat_eq_yr])) _)
    · rcases lt_or_le t t_mat_lambda_eq_yr with h2 | h2
      · rw [scale_factor_approx_mat h1 h2]
        exact mul_pos a_ml_pos (Real.rpow_pos_of_pos
          (div_pos h (by norm_num [t_mat_lambda_eq_yr])) _)
      · rw [scale_factor_approx_de h2]
        exact div_pos (Real.exp_pos _) (Real.exp_pos _)

lemma sec_in_year_pos : (0 : ℝ) < sec_in_year := by norm_num [sec_in_year]

lemma temp_of_pos {t : ℝ} (h : 0 < t) :
    temp_of t = Temp.finite (2.725 / scale_factor_approx t) := by
  unfold temp_of
  rw [if_neg (not_le.mpr h)]

lemma temp_of_nonpos {t : ℝ} (h : t ≤ 0) : temp_of t = Temp.infinite := by
  unfold temp_of
  rw [if_pos h]

end AdvancedBigBangSim

namespace AdvancedBigBangSim

lemma H0_per_yr_pos : (0 : ℝ) < H0_per_yr := by norm_num [H0_per_yr, H0]

lemma growth_rate_nonneg : 0 ≤ H0_per_yr * Real.sqrt Omega_L0 :=
  mul_nonneg H0_per_yr_pos.le (Real.sqrt_nonneg _)

lemma sqrt_Omega_L0_lb : (0.8 : ℝ) ≤ Real.sqrt Omega_L0 := by
  rw [Real.le_sqrt (by norm_num) (by norm_num [Omega_L0, Omega_M0, Omega_R0])]
  norm_num [Omega_L0, Omega_M0, Omega_R0]

lemma exponent_at_present_lb :
    (100 : ℝ) ≤ H0_per_yr * Real.sqrt Omega_L0 * (t_present_yr - t_mat_lambda_eq_yr) := by
  have hd : (0 : ℝ) ≤ t_present_yr - t_mat_lambda_eq_yr := by
    norm_num [t_present_yr, t_mat_lambda_eq_yr]
  calc (100 : ℝ) ≤ H0_per_yr * 0.8 * (t_present_yr - t_mat_lambda_eq_yr) := by
        norm_num [H0_per_yr, H0, t_present_yr, t_mat_lambda_eq_yr]
    _ ≤ H0_per_yr * Real.sqrt Omega_L0 * (t_present_yr - t_mat_lambda_eq_yr) :=
        mul_le_mul_of_nonneg_right
          (mul_le_mul_of_nonneg_left sqrt_Omega_L0_lb H0_per_yr_pos.le) hd

lemma exp_ge_of_hundred_le {x : ℝ} (h : 100 ≤ x) : (1e30 : ℝ) ≤ Real.exp x := by
  have h2 : (2 : ℝ) ≤ Real.exp 1 :=
    le_of_lt (lt_trans (by norm_num) Real.exp_one_gt_d9)
  have h100 : Real.exp (((100 : ℕ) : ℝ) * (1 : ℝ)) = Real.exp 1 ^ (100 : ℕ) :=
    Real.exp_nat_mul 1 100
  have hx : (1e30 : ℝ) ≤ Real.exp (100 : ℝ) := by
    have hcast : (((100 : ℕ) : ℝ) * (1 : ℝ)) = (100 : ℝ) := by norm_num
    rw [← hcast, h100]
    calc (1e30 : ℝ) ≤ 2 ^ (100 : ℕ) := by norm_num
      _ ≤ Real.exp 1 ^ (100 : ℕ) := pow_le_pow_left (by norm_num) h2 100
  exact le_trans hx (Real.exp_le_exp.mpr h)

lemma scale_factor_approx_at_tml_le :
    scale_factor_approx t_mat_lambda_eq_yr ≤ 1e-30 := by
  rw [scale_factor_approx_de le_rfl, sub_self, mul_zero, Real.exp_zero]
  rw [div_le_iff (Real.exp_pos _)]
  calc (1 : ℝ) = 1e-30 * 1e30 := by norm_num
    _ ≤ 1e-30 * Real.exp (H0_per_yr * Real.sqrt Omega_L0 * (t_present_yr - t_mat_lambda_eq_yr)) :=
        mul_le_mul_of_nonneg_left (exp_ge_of_hundred_le exponent_at_present_lb) (by norm_num)

lemma sf_mono_rad {t1 t2 : ℝ} (h0 : 0 < t1) (h12 : t1 ≤ t2) (h2 : t2 < t_rad_mat_eq_yr) :
    scale_factor_approx t1 ≤ scale_factor_approx t2 := by
  rw [scale_factor_approx_rad h0 (lt_of_le_of_lt h12 h2),
    scale_factor_approx_rad (lt_of_lt_of_le h0 h12) h2]
  refine mul_le_mul_of_nonneg_left ?_ arm_pos.le
  exact Real.rpow_le_rpow
    (div_nonneg h0.le (by norm_num [t_rad_mat_eq_yr]))
    ((div_le_div_right (by norm_num [t_rad_mat_eq_yr])).mpr h12) (by norm_num)

lemma sf_mono_mat {t1 t2 : ℝ} (h1 : t_rad_mat_eq_yr ≤ t1) (h12 : t1 ≤ t2)
    (h2 : t2 < t_mat_lambda_eq_yr) :
    scale_factor_approx t1 ≤ scale_factor_approx t2 := by
  rw [scale_factor_approx_mat h1 (lt_of_le_of_lt h12 h2),
    scale_factor_approx_mat (le_trans h1 h12) h2]
  refine mul_le_mul_of_nonneg_left ?_ a_ml_pos.le
  have ht1 : (0 : ℝ) ≤ t1 := le_trans (by norm_num [t_rad_mat_eq_yr]) h1
  exact Real.rpow_le_rpow
    (div_nonneg ht1 (by norm_num [t_mat_lambda_eq_yr]))
    ((div_le_div_right (by norm_num [t_mat_lambda_eq_yr])).mpr h12) (by norm_num)

lemma sf_mono_de {t1 t2 : ℝ} (h1 : t_mat_lambda_eq_yr ≤ t1) (h12 : t1 ≤ t2) :
    scale_factor_approx t1 ≤ scale_factor_approx t2 := by
  rw [scale_factor_approx_de h1, scale_factor_approx_de (le_trans h1 h12)]
  refine (div_le_div_right (Real.exp_pos _)).mpr ?_
  exact Real.exp_le_exp.mpr
    (mul_le_mul_of_nonneg_left (sub_le_sub_right h12 _) growth_rate_nonneg)

lemma sf_cross_rad_mat {t1 t2 : ℝ} (h0 : 0 < t1) (h1 : t1 < t_rad_mat_eq_yr)
    (h2 : t_rad_mat_eq_yr ≤ t2) (h3 : t2 < t_mat_lambda_eq_yr) :
    scale_factor_approx t1 ≤ scale_factor_approx t2 := by
  rw [scale_factor_approx_rad h0 h1, scale_factor_approx_mat h2 h3]
  have htrm : (0 : ℝ) < t_rad_mat_eq_yr := by norm_num [t_rad_mat_eq_yr]
  calc a_at_rm_eq_approx * (t1 / t_rad_mat_eq_yr) ^ ((0.5 : ℝ))
      ≤ a_at_rm_eq_approx * 1 :=
        mul_le_mul_of_nonneg_left
          (Real.rpow_le_one (div_nonneg h0.le htrm.le)
            ((div_le_one htrm).mpr h1.le) (by norm_num)) arm_pos.le
    _ = a_ml * (t_rad_mat_eq_yr / t_mat_lambda_eq_yr) ^ ((2 : ℝ) / 3) := by
        rw [mul_one]
        rfl
    _ ≤ a_ml * (t2 / t_mat_lambda_eq_yr) ^ ((2 : ℝ) / 3) := by
        refine mul_le_mul_of_nonneg_left ?_ a_ml_pos.le
        exact Real.rpow_le_rpow
          (div_nonneg htrm.le (by norm_num [t_mat_lambda_eq_yr]))
          ((div_le_div_right (by norm_num [t_mat_lambda_eq_yr])).mpr h2) (by norm_num)

lemma clamped_mono_below {t1 t2 : ℝ} (h12 : t1 ≤ t2) (h2 : t2 < t_mat_lambda_eq_yr) :
    max 1e-30 (scale_factor_approx t1) ≤ max 1e-30 (scale_factor_approx t2) := by
  rcases le_or_lt t1 0 with ht1 | ht1
  · rw [scale_factor_approx_nonpos ht1, max_self]
    exact le_max_left _ _
  · refine max_le_max le_rfl ?_
    rcases lt_or_le t1 t_rad_mat_eq_yr with hr1 | hr1
    · rcases lt_or_le t2 t_rad_mat_eq_yr with hr2 | hr2
      · exact sf_mono_rad ht1 h12 hr2
      · exact sf_cross_rad_mat ht1 hr1 hr2 h2
    · exact sf_mono_mat hr1 h12 h2

lemma clamped_mono_above {t1 t2 : ℝ} (h1 : t_mat_lambda_eq_yr ≤ t1) (h12 : t1 ≤ t2) :
    max 1e-30 (scale_factor_approx t1) ≤ max 1e-30 (scale_factor_approx t2) :=
  max_le_max le_rfl (sf_mono_de h1 h12)

end AdvancedBigBangSim

namespace AdvancedBigBangSim

lemma calculate_state_scale_factor (t : ℝ) :
    (calculate_state t).scale_factor = max 1e-30 (scale_factor_approx t) := rfl

lemma calculate_state_temp (t : ℝ) : (calculate_state t).temp_k = temp_of t := rfl

lemma calculate_state_description (t : ℝ) :
    (calculate_state t).description = description_of t (temp_of t) := rfl

/-- C9: for every time input, the `density` entry of `visual_params` equals
`Omega_M0` divided by the cube of the clamped `scale_factor` stored in the
descriptor. -/
theorem C9_density_inverse_cube (t : ℝ) :
    (calculate_state t).visual_params.density =
      Omega_M0 / (calculate_state t).scale_factor ^ 3 := rfl

/-- C2: `calculate_state` is total over the reals: every descriptor carries a
scale factor at or above the positive floor `1e-30`, and for every positive
time the divisor `scale_factor_approx` used to compute the temperature is
strictly positive, so no division by zero occurs. -/
theorem C2_total_no_div_by_zero (t : ℝ) :
    1e-30 ≤ (calculate_state t).scale_factor ∧
      (0 < t → 0 < scale_factor_approx t) := by
  constructor
  · rw [calculate_state_scale_factor]
    exact le_max_left _ _
  · intro _
    exact scale_factor_approx_pos t

/-- Witness for C2 at the concrete input `t = 1`. -/
theorem C2_total_no_div_by_zero_witness :
    1e-30 ≤ (calculate_state 1).scale_factor ∧
      ((0 : ℝ) < 1 → 0 < scale_factor_approx 1) :=
  C2_total_no_div_by_zero 1

/-- C3: for every `time_years ≤ 0`, `calculate_state` returns the singularity
descriptor: scale factor at the floor `1e-30`, infinite temperature, and the
Inflation/Planck Era phase label. -/
theorem C3_singularity_descriptor {t : ℝ} (h : t ≤ 0) :
    (calculate_state t).scale_factor = 1e-30 ∧
      (calculate_state t).temp_k = Temp.infinite ∧
      (calculate_state t).description = "Inflation / Planck Era (Conceptual)" := by
  refine ⟨?_, ?_, ?_⟩
  · rw [calculate_state_scale_factor, scale_factor_approx_nonpos h, max_self]
  · rw [calculate_state_temp]
    exact temp_of_nonpos h
  · rw [calculate_state_description]
    unfold description_of
    rw [if_pos ?hc]
    case hc =>
      have hsec : t * sec_in_year ≤ 0 :=
        mul_nonpos_iff.mpr (Or.inr ⟨h, sec_in_year_pos.le⟩)
      calc t * sec_in_year ≤ 0 := hsec
        _ < 1e-12 := by norm_num

/-- Witness for C3 at the concrete input `t = 0`. -/
theorem C3_singularity_descriptor_witness :
    (calculate_state 0).scale_factor = 1e-30 ∧
      (calculate_state 0).temp_k = Temp.infinite ∧
      (calculate_state 0).description = "Inflation / Planck Era (Conceptual)" :=
  C3_singularity_descriptor le_rfl

/-- C5: at the present age `13.8e9` years the returned scale factor equals 1
(hence is within the claimed 1% tolerance): the dark-energy branch is
renormalized by its own value at the present age. -/
theorem C5_present_day_normalization :
    |(calculate_state 13.8e9).scale_factor - 1| ≤ 0.01 := by
  have he : (13.8e9 : ℝ) = t_present_yr := rfl
  have h : scale_factor_approx 13.8e9 = 1 := by
    rw [scale_factor_approx_de (by norm_num [t_present_yr, t_mat_lambda_eq_yr] :
      t_mat_lambda_eq_yr ≤ (13.8e9 : ℝ)), he]
    exact div_self (ne_of_gt (Real.exp_pos _))
  rw [calculate_state_scale_factor, h]
  norm_num

/-- C8: for `t1 < t2` lying in the same single regime — both in
`(0, 50000)`, both in `[50000, 9.8e9)`, or both in `[9.8e9, ∞)` — the
returned scale factor is monotone non-decreasing. -/
theorem C8_monotone_within_regime {t1 t2 : ℝ} (h12 : t1 < t2)
    (hreg : (0 < t1 ∧ t2 < t_rad_mat_eq_yr) ∨
      (t_rad_mat_eq_yr ≤ t1 ∧ t2 < t_mat_lambda_eq_yr) ∨
      t_mat_lambda_eq_yr ≤ t1) :
    (calculate_state t1).scale_factor ≤ (calculate_state t2).scale_factor := by
  rw [calculate_state_scale_factor, calculate_state_scale_factor]
  rcases hreg with ⟨h0, h2⟩ | ⟨h1, h2⟩ | h1
  · exact max_le_max le_rfl (sf_mono_rad h0 h12.le h2)
  · exact max_le_max le_rfl (sf_mono_mat h1 h12.le h2)
  · exact clamped_mono_above h1 h12.le

/-- Witness for C8 at the concrete radiation-regime pair `t1 = 1 < t2 = 2`. -/
theorem C8_monotone_within_regime_witness :
    (1 : ℝ) < 2 ∧ (calculate_state 1).scale_factor ≤ (calculate_state 2).scale_factor :=
  ⟨by norm_num,
    C8_monotone_within_regime (by norm_num)
      (Or.inl ⟨by norm_num, by norm_num [t_rad_mat_eq_yr]⟩)⟩

/-- C1 counterexample: the scale factor is NOT monotone across the
matter/dark-energy boundary: at `t1 = 50000 < t2 = 9.8e9` the returned scale
factor strictly decreases (from about `2.2e-4` down to the clamp floor
`1e-30`), because the dark-energy branch is normalized at the present age and
is vanishingly small at `9.8e9`. -/
theorem C1_counterexample :
    (50000 : ℝ) < 9.8e9 ∧
      ¬ (calculate_state 50000).scale_factor ≤ (calculate_state 9.8e9).scale_factor := by
  constructor
  · norm_num
  · rw [calculate_state_scale_factor, calculate_state_scale_factor]
    have h98 : (9.8e9 : ℝ) = t_mat_lambda_eq_yr := rfl
    have h50 : (50000 : ℝ) = t_rad_mat_eq_yr := rfl
    have hde : max 1e-30 (scale_factor_approx 9.8e9) = 1e-30 := by
      rw [h98, max_eq_left scale_factor_approx_at_tml_le]
    have heq : scale_factor_approx 50000 = a_at_rm_eq_approx := by
      rw [h50, scale_factor_approx_mat le_rfl
        (by norm_num [t_rad_mat_eq_yr, t_mat_lambda_eq_yr])]
      rfl
    rw [hde, not_le]
    calc (1e-30 : ℝ) < 2.2125e-4 := by norm_num
      _ ≤ scale_factor_approx 50000 := by rw [heq]; exact arm_lb
      _ ≤ max 1e-30 (scale_factor_approx 50000) := le_max_right _ _

/-- C1 amended: the returned scale factor is monotone non-decreasing on each
side of the matter/dark-energy boundary `9.8e9` (in particular across the
radiation/matter boundary at 50,000 years), but not across `9.8e9` itself. -/
theorem C1_amended_monotone {t1 t2 : ℝ} (h12 : t1 < t2)
    (h : t2 < t_mat_lambda_eq_yr ∨ t_mat_lambda_eq_yr ≤ t1) :
    (calculate_state t1).scale_factor ≤ (calculate_state t2).scale_factor := by
  rw [calculate_state_scale_factor, calculate_state_scale_factor]
  rcases h with h2 | h1
  · exact clamped_mono_below h12.le h2
  · exact clamped_mono_above h1 h12.le

/-- Witness for the amended C1 at the concrete pair `t1 = 25000 < t2 = 60000`,
which crosses the radiation/matter boundary at 50,000 years. -/
theorem C1_amended_monotone_witness :
    (25000 : ℝ) < 60000 ∧
      (calculate_state 25000).scale_factor ≤ (calculate_state 60000).scale_factor :=
  ⟨by norm_num,
    C1_amended_monotone (by norm_num) (Or.inl (by norm_num [t_mat_lambda_eq_yr]))⟩

end AdvancedBigBangSim

namespace AdvancedBigBangSim

/-- C4 counterexample: deep in the radiation regime (`t = 1e-60`) the
un-clamped scale factor lies below the `1e-30` floor, so the temperature — which
the code computes from the un-clamped value before clamping — differs from
`2.725` divided by the returned (clamped) `scale_factor`. -/
theorem C4_counterexample :
    (0 : ℝ) < 1e-60 ∧
      (calculate_state 1e-60).temp_k ≠
        Temp.finite (2.725 / (calculate_state 1e-60).scale_factor) := by
  refine ⟨by norm_num, ?_⟩
  have hpos : (0 : ℝ) < 1e-60 := by norm_num
  have hrad : (1e-60 : ℝ) < t_rad_mat_eq_yr := by norm_num [t_rad_mat_eq_yr]
  have hub : scale_factor_approx 1e-60 ≤ 1e-32 := by
    rw [scale_factor_approx_rad hpos hrad]
    calc a_at_rm_eq_approx * ((1e-60 : ℝ) / t_rad_mat_eq_yr) ^ ((0.5 : ℝ))
        ≤ 1 * 1e-32 :=
          mul_le_mul arm_le_one
            (rpow_half_le (by norm_num [t_rad_mat_eq_yr]) (by norm_num)
              (by norm_num [t_rad_mat_eq_yr]))
            (Real.rpow_nonneg (by norm_num [t_rad_mat_eq_yr]) _) (by norm_num)
      _ = 1e-32 := by norm_num
  have hclamp : (calculate_state 1e-60).scale_factor = 1e-30 := by
    rw [calculate_state_scale_factor, max_eq_left (le_trans hub (by norm_num))]
  rw [calculate_state_temp, temp_of_pos hpos, hclamp]
  intro hEq
  have hv : 2.725 / scale_factor_approx 1e-60 = 2.725 / (1e-30 : ℝ) :=
    Temp.finite.inj hEq
  have hlt : 2.725 / (1e-30 : ℝ) < 2.725 / scale_factor_approx 1e-60 :=
    div_lt_div_of_pos_left (by norm_num) (scale_factor_approx_pos _)
      (lt_of_le_of_lt hub (by norm_num))
  rw [hv] at hlt
  exact lt_irrefl _ hlt

/-- C4 amended: for every positive time the temperature equals `2.725` divided
by the un-clamped scale-factor value of that regime; whenever that un-clamped
value is at or above the `1e-30` floor (so that clamping is the identity), it
also equals `2.725` divided by the returned `scale_factor`. -/
theorem C4_amended_temp_scaling {t : ℝ} (h : 0 < t) :
    (calculate_state t).temp_k = Temp.finite (2.725 / scale_factor_approx t) ∧
      (1e-30 ≤ scale_factor_approx t →
        (calculate_state t).temp_k =
          Temp.finite (2.725 / (calculate_state t).scale_factor)) := by
  constructor
  · rw [calculate_state_temp]
    exact temp_of_pos h
  · intro hge
    rw [calculate_state_temp, temp_of_pos h, calculate_state_scale_factor,
      max_eq_right hge]

/-- Witness for the amended C4 at the concrete input `t = 50000`, where the
un-clamped scale factor is far above the floor. -/
theorem C4_amended_temp_scaling_witness :
    (1e-30 ≤ scale_factor_approx 50000 →
      (calculate_state 50000).temp_k =
        Temp.finite (2.725 / (calculate_state 50000).scale_factor)) ∧
      (calculate_state 50000).temp_k = Temp.finite (2.725 / scale_factor_approx 50000) :=
  ⟨(C4_amended_temp_scaling (by norm_num)).2, (C4_amended_temp_scaling (by norm_num)).1⟩

end AdvancedBigBangSim

namespace AdvancedBigBangSim

lemma sfa_377000_ub : scale_factor_approx 377000 ≤ 8.61e-4 := by
  rw [scale_factor_approx_mat (by norm_num [t_rad_mat_eq_yr])
    (by norm_num [t_mat_lambda_eq_yr])]
  calc a_ml * ((377000 : ℝ) / t_mat_lambda_eq_yr) ^ ((2 : ℝ) / 3)
      ≤ 0.7545 * 1.1402e-3 :=
        mul_le_mul a_ml_ub
          (rpow_two_thirds_le (by norm_num [t_mat_lambda_eq_yr]) (by norm_num)
            (by norm_num [t_mat_lambda_eq_yr]))
          (Real.rpow_nonneg (by norm_num [t_mat_lambda_eq_yr]) _) (by norm_num)
    _ ≤ 8.61e-4 := by norm_num

lemma sfa_377000_lb : (8.25e-4 : ℝ) ≤ scale_factor_approx 377000 := by
  rw [scale_factor_approx_mat (by norm_num [t_rad_mat_eq_yr])
    (by norm_num [t_mat_lambda_eq_yr])]
  calc (8.25e-4 : ℝ) = 0.75 * 1.1e-3 := by norm_num
    _ ≤ a_ml * ((377000 : ℝ) / t_mat_lambda_eq_yr) ^ ((2 : ℝ) / 3) :=
        mul_le_mul a_ml_lb
          (le_rpow_two_thirds (by norm_num [t_mat_lambda_eq_yr]) (by norm_num)
            (by norm_num [t_mat_lambda_eq_yr]))
          (by norm_num) (le_trans (by norm_num) a_ml_lb)

lemma description_at_377000 :
    (calculate_state 377000).description = "Opaque Plasma (Photon Baryon Fluid)" := by
  have hpos : (0 : ℝ) < 377000 := by norm_num
  have hplanck : ¬ (377000 : ℝ) * sec_in_year < 1e-12 := by
    norm_num [sec_in_year]
  have hq : ¬ (temp_of 377000).gtReal T_quark_hadron := by
    rw [temp_of_pos hpos]
    show ¬ T_quark_hadron < 2.725 / scale_factor_approx 377000
    rw [not_lt, div_le_iff (scale_factor_approx_pos _)]
    calc (2.725 : ℝ) ≤ 1e12 * 8.25e-4 := by norm_num
      _ ≤ T_quark_hadron * scale_factor_approx 377000 :=
          mul_le_mul (by norm_num [T_quark_hadron]) sfa_377000_lb (by norm_num)
            (by norm_num [T_quark_hadron])
  have hwin : ¬ ((377000 : ℝ) > t_nucleosynthesis_start_yr ∧
      (377000 : ℝ) < t_nucleosynthesis_end_yr) := by
    rintro ⟨-, hcon⟩
    norm_num [t_nucleosynthesis_end_yr, sec_in_year] at hcon
  have hrec : (temp_of 377000).gtReal T_recombination := by
    rw [temp_of_pos hpos]
    show T_recombination < 2.725 / scale_factor_approx 377000
    rw [lt_div_iff (scale_factor_approx_pos _)]
    calc T_recombination * scale_factor_approx 377000 ≤ 3000 * 8.61e-4 :=
          mul_le_mul (by norm_num [T_recombination]) sfa_377000_ub
            (le_trans (by norm_num) sfa_377000_lb) (by norm_num)
      _ < 2.725 := by norm_num
  rw [calculate_state_description]
  unfold description_of
  rw [if_neg hplanck, if_neg hq, if_neg hwin, if_pos hrec]

/-- C6 counterexample: at the recombination time constant `t = 377000` the
computed temperature is about 3171 K, still above the 3000 K opaque-plasma
threshold, so the returned phase label is the opaque-plasma label, not a
label in the recombination/dark-ages category. -/
theorem C6_counterexample :
    ¬ ((calculate_state 377000).description = "Recombination Ongoing" ∨
      (calculate_state 377000).description = "Dark Ages (Neutral Atoms, CMB Released)") := by
  rw [description_at_377000]
  rintro (h | h) <;> exact absurd h (by decide)

/-- C6 amended: at `t = 377000` the phase label is the opaque-plasma label
(the modeled temperature is still above 3000 K there); the recombination/
dark-ages category begins slightly later — at `t = 420000` the label is the
Dark Ages label. -/
theorem C6_amended_label_at_recombination :
    (calculate_state 377000).description = "Opaque Plasma (Photon Baryon Fluid)" ∧
      (calculate_state 420000).description = "Dark Ages (Neutral Atoms, CMB Released)" := by
  refine ⟨description_at_377000, ?_⟩
  have hpos : (0 : ℝ) < 420000 := by norm_num
  have hlb : (9.15e-4 : ℝ) ≤ scale_factor_approx 420000 := by
    rw [scale_factor_approx_mat (by norm_num [t_rad_mat_eq_yr])
      (by norm_num [t_mat_lambda_eq_yr])]
    calc (9.15e-4 : ℝ) = 0.75 * 1.22e-3 := by norm_num
      _ ≤ a_ml * ((420000 : ℝ) / t_mat_lambda_eq_yr) ^ ((2 : ℝ) / 3) :=
          mul_le_mul a_ml_lb
            (le_rpow_two_thirds (by norm_num [t_mat_lambda_eq_yr]) (by norm_num)
              (by norm_num [t_mat_lambda_eq_yr]))
            (by norm_num) (le_trans (by norm_num) a_ml_lb)
  have hplanck : ¬ (420000 : ℝ) * sec_in_year < 1e-12 := by
    norm_num [sec_in_year]
  have hq : ¬ (temp_of 420000).gtReal T_quark_hadron := by
    rw [temp_of_pos hpos]
    show ¬ T_quark_hadron < 2.725 / scale_factor_approx 420000
    rw [not_lt, div_le_iff (scale_factor_approx_pos _)]
    calc (2.725 : ℝ) ≤ 1e12 * 9.15e-4 := by norm_num
      _ ≤ T_quark_hadron * scale_factor_approx 420000 :=
          mul_le_mul (by norm_num [T_quark_hadron]) hlb (by norm_num)
            (by norm_num [T_quark_hadron])
  have hwin : ¬ ((420000 : ℝ) > t_nucleosynthesis_start_yr ∧
      (420000 : ℝ) < t_nucleosynthesis_end_yr) := by
    rintro ⟨-, hcon⟩
    norm_num [t_nucleosynthesis_end_yr, sec_in_year] at hcon
  have hrec : ¬ (temp_of 420000).gtReal T_recombination := by
    rw [temp_of_pos hpos]
    show ¬ T_recombination < 2.725 / scale_factor_approx 420000
    rw [not_lt, div_le_iff (scale_factor_approx_pos _)]
    calc (2.725 : ℝ) ≤ 3000 * 9.15e-4 := by norm_num
      _ ≤ T_recombination * scale_factor_approx 420000 :=
          mul_le_mul (by norm_num [T_recombination]) hlb (by norm_num)
            (by norm_num [T_recombination])
  have hfs : (420000 : ℝ) < t_first_stars_yr := by norm_num [t_first_stars_yr]
  have hgt : (420000 : ℝ) > t_recombination_yr := by norm_num [t_recombination_yr]
  rw [calculate_state_description]
  unfold description_of
  rw [if_neg hplanck, if_neg hq, if_neg hwin, if_neg hrec, if_pos hfs, if_pos hgt]

/-- C7: any time strictly inside the nucleosynthesis window (10 seconds to
20 minutes, in years) whose computed temperature is above the 3000 K
opaque-plasma threshold but not above the `1e12` K quark-gluon threshold is
labeled Big Bang Nucleosynthesis: the window test precedes the opaque-plasma
test in the fixed priority ladder. -/
theorem C7_nucleosynthesis_priority {t : ℝ}
    (h1 : t_nucleosynthesis_start_yr < t) (h2 : t < t_nucleosynthesis_end_yr)
    (h3 : ((calculate_state t).temp_k).gtReal T_recombination)
    (h4 : ¬ ((calculate_state t).temp_k).gtReal T_quark_hadron) :
    (calculate_state t).description = "Big Bang Nucleosynthesis" := by
  rw [calculate_state_temp] at h3 h4
  have hplanck : ¬ t * sec_in_year < 1e-12 := by
    have h1' := h1
    unfold t_nucleosynthesis_start_yr at h1'
    have h10 : (10 : ℝ) < t * sec_in_year := (div_lt_iff sec_in_year_pos).mp h1'
    push_neg
    linarith
  rw [calculate_state_description]
  unfold description_of
  rw [if_neg hplanck, if_neg h4, if_pos ⟨h1, h2⟩]

/-- Witness for C7 at the concrete input `t = 1e-5` years (about 316 seconds),
inside the nucleosynthesis window, with temperature about `8.6e8` K — above
3000 K and below `1e12` K. -/
theorem C7_nucleosynthesis_priority_witness :
    t_nucleosynthesis_start_yr < (1e-5 : ℝ) ∧ (1e-5 : ℝ) < t_nucleosynthesis_end_yr ∧
      (calculate_state 1e-5).description = "Big Bang Nucleosynthesis" := by
  have hs : t_nucleosynthesis_start_yr < (1e-5 : ℝ) := by
    norm_num [t_nucleosynthesis_start_yr, sec_in_year]
  have he : (1e-5 : ℝ) < t_nucleosynthesis_end_yr := by
    norm_num [t_nucleosynthesis_end_yr, sec_in_year]
  have hpos : (0 : ℝ) < 1e-5 := by norm_num
  have hrad : (1e-5 : ℝ) < t_rad_mat_eq_yr := by norm_num [t_rad_mat_eq_yr]
  have hub : scale_factor_approx 1e-5 ≤ 1.5e-5 := by
    rw [scale_factor_approx_rad hpos hrad]
    calc a_at_rm_eq_approx * ((1e-5 : ℝ) / t_rad_mat_eq_yr) ^ ((0.5 : ℝ))
        ≤ 1 * 1.5e-5 :=
          mul_le_mul arm_le_one
            (rpow_half_le (by norm_num [t_rad_mat_eq_yr]) (by norm_num)
              (by norm_num [t_rad_mat_eq_yr]))
            (Real.rpow_nonneg (by norm_num [t_rad_mat_eq_yr]) _) (by norm_num)
      _ = 1.5e-5 := by norm_num
  have hlb : (3e-9 : ℝ) ≤ scale_factor_approx 1e-5 := by
    rw [scale_factor_approx_rad hpos hrad]
    calc (3e-9 : ℝ) ≤ 2.2125e-4 * 1.4e-5 := by norm_num
      _ ≤ a_at_rm_eq_approx * ((1e-5 : ℝ) / t_rad_mat_eq_yr) ^ ((0.5 : ℝ)) :=
          mul_le_mul arm_lb
            (le_rpow_half (by norm_num) (by norm_num [t_rad_mat_eq_yr]))
            (by norm_num) arm_pos.le
  have h3 : ((calculate_state 1e-5).temp_k).gtReal T_recombination := by
    rw [calculate_state_temp, temp_of_pos hpos]
    show T_recombination < 2.725 / scale_factor_approx 1e-5
    rw [lt_div_iff (scale_factor_approx_pos _)]
    calc T_recombination * scale_factor_approx 1e-5 ≤ 3000 * 1.5e-5 :=
          mul_le_mul (by norm_num [T_recombination]) hub
            (le_trans (by norm_num) hlb) (by norm_num)
      _ < 2.725 := by norm_num
  have h4 : ¬ ((calculate_state 1e-5).temp_k).gtReal T_quark_hadron := by
    rw [calculate_state_temp, temp_of_pos hpos]
    show ¬ T_quark_hadron < 2.725 / scale_factor_approx 1e-5
    rw [not_lt, div_le_iff (scale_factor_approx_pos _)]
    calc (2.725 : ℝ) ≤ 1e12 * 3e-9 := by norm_num
      _ ≤ T_quark_hadron * scale_factor_approx 1e-5 :=
          mul_le_mul (by norm_num [T_quark_hadron]) hlb (by norm_num)
            (by norm_num [T_quark_hadron])
  exact ⟨hs, he, C7_nucleosynthesis_priority hs he h3 h4⟩

end AdvancedBigBangSim

namespace BigBangSimulator

lemma EPOCHS_length : EPOCHS.length = 9 := rfl

lemma epoch_step_bounds {i : ℤ} (h0 : 0 ≤ i) (h1 : i ≤ (EPOCHS.length : ℤ) - 1)
    (op : EpochOp) :
    0 ≤ epoch_step i op ∧ epoch_step i op ≤ (EPOCHS.length : ℤ) - 1 := by
  cases op with
  | next =>
      show 0 ≤ next_epoch i ∧ next_epoch i ≤ (EPOCHS.length : ℤ) - 1
      unfold next_epoch
      split_ifs with h
      · exact ⟨by omega, by omega⟩
      · exact ⟨h0, h1⟩
  | prev =>
      show 0 ≤ prev_epoch i ∧ prev_epoch i ≤ (EPOCHS.length : ℤ) - 1
      unfold prev_epoch
      split_ifs with h
      · exact ⟨by omega, by omega⟩
      · exact ⟨h0, h1⟩

lemma foldl_epoch_step_bounds (ops : List EpochOp) {i : ℤ} (h0 : 0 ≤ i)
    (h1 : i ≤ (EPOCHS.length : ℤ) - 1) :
    0 ≤ ops.foldl epoch_step i ∧ ops.foldl epoch_step i ≤ (EPOCHS.length : ℤ) - 1 := by
  induction ops generalizing i with
  | nil => exact ⟨h0, h1⟩
  | cons op rest ih =>
      rcases epoch_step_bounds h0 h1 op with ⟨ha, hb⟩
      exact ih ha hb

/-- C10: starting from index 0, every sequence of next/prev button presses
keeps the current epoch index within `[0, len(EPOCHS) - 1]`, so converting it
to a natural number always indexes inside the `EPOCHS` table. -/
theorem C10_epoch_index_in_bounds (ops : List EpochOp) :
    0 ≤ run_epochs ops ∧ run_epochs ops ≤ (EPOCHS.length : ℤ) - 1 ∧
      (run_epochs ops).toNat < EPOCHS.length := by
  have h : 0 ≤ run_epochs ops ∧ run_epochs ops ≤ (EPOCHS.length : ℤ) - 1 :=
    foldl_epoch_step_bounds ops (le_refl (0 : ℤ)) (by rw [EPOCHS_length]; norm_num)
  refine ⟨h.1, h.2, ?_⟩
  have h1 := h.1
  have h2 := h.2
  omega

end BigBangSimulator
